import Mathlib

/-!
Verification of the flow_ffi C boundary layer.

This file gives a shallow embedding, in Lean 4, of the bridge functions of
the flow_ffi repository (src/src/*.cpp, src/src/*.hpp) and proves or refutes
the specification claims about them.

Conventions of the embedding:
* every bridge function becomes a pure Lean function; the thread-local error
  slot of `flow_ffi::ErrorManager` (projected to the calling thread) is
  threaded explicitly as an `ErrState` value;
* C `NULL` results and unwritten out-parameters are `Option.none`;
* the flow-core classes (`Node`, `Graph`, `Module`, `Env`, `NodeData`) are
  external collaborators of this repository; the few of their operations the
  bridge calls are modelled from the specification and carry a doc comment
  saying so.  Everything else is translated directly from the C++ sources.
-/

namespace FlowFFI

/-- The `FlowError` enumeration of include/flow_ffi.h. -/
inductive FlowError where
  | success
  | invalidHandle
  | invalidArgument
  | nodeNotFound
  | portNotFound
  | connectionFailed
  | moduleLoadFailed
  | computationFailed
  | outOfMemory
  | typeMismatch
  | notImplemented
  | unknownError
deriving DecidableEq

/-- The thread-local error slot of `flow_ffi::ErrorManager`
(src/src/error_handling.hpp, lines 13-60), projected to a single calling
thread: `none` means no error is recorded for that thread, `some (c, m)`
means code `c` with message `m` is recorded. -/
abbrev ErrState := Option (FlowError × String)

/-- `ErrorManager::set_error` for the calling thread. -/
def setError (code : FlowError) (msg : String) : ErrState := some (code, msg)

/-- `flow_get_last_error` (src/src/error_handling.cpp, lines 5-7): returns
the recorded message for the calling thread, or `NULL` (here `none`). -/
def flow_get_last_error (es : ErrState) : Option String := es.map (fun p => p.2)

/-- `s` contains `w` as a substring. -/
def ContainsWord (s w : String) : Prop := ∃ a b, s = a ++ w ++ b

/-- The type-erased `flow::NodeData` payloads the bridge creates in
src/src/type_conversions.cpp: `NodeData<int>`, `NodeData<double>`,
`NodeData<bool>`, `NodeData<std::string>`.  A `double` payload is stored and
read back without any arithmetic, so it is carried as its untouched 64-bit
pattern, represented by a `Nat`. -/
inductive FlowData where
  | intData (v : Int)
  | doubleData (bits : Nat)
  | boolData (b : Bool)
  | stringData (s : String)
deriving DecidableEq

/-- Modelled from the spec: `TypedValue.Type()` returns the stored tag as a
stable type-name string (`flow::TypeName_v<T>` of the flow-core library,
which the bridge compares against in src/src/type_conversions.cpp). -/
def FlowData.typeName : FlowData → String
  | .intData _ => "int"
  | .doubleData _ => "double"
  | .boolData _ => "bool"
  | .stringData _ => "std::string"

/-- Modelled from the spec: `TypedValue.ToString()` renders a human-readable
projection, implementation-defined but stable and deterministic for a given
value (flow-core `NodeData::ToString`, called by `CreateInterworkingJson`). -/
def FlowData.render : FlowData → String
  | .intData v => toString v
  | .doubleData bits => toString bits
  | .boolData b => toString b
  | .stringData s => s

/-- `flow_data_create_int` (src/src/type_conversions.cpp, lines 30-37): the
`int32_t` argument is cast to `int` (same width, identity) and wrapped in a
`NodeData<int>`. -/
def flow_data_create_int (v : Int) : FlowData := .intData v

/-- `flow_data_create_double` (src/src/type_conversions.cpp, lines 39-46). -/
def flow_data_create_double (bits : Nat) : FlowData := .doubleData bits

/-- `flow_data_create_bool` (src/src/type_conversions.cpp, lines 48-55). -/
def flow_data_create_bool (b : Bool) : FlowData := .boolData b

/-- `flow_data_create_string` (src/src/type_conversions.cpp, lines 57-68,
after the non-null `value` check). -/
def flow_data_create_string (s : String) : FlowData := .stringData s

/-- `flow_data_get_int` (src/src/type_conversions.cpp, lines 74-114), after
handle validation: if the stored `Type()` tag is not `TypeName_v<int>` the
call fails with `FLOW_ERROR_TYPE_MISMATCH`, records an error, and never
writes `*value` (the `Option` result stays `none`); otherwise it succeeds
and writes the stored value cast back to `int32_t` (identity). -/
def flow_data_get_int (d : FlowData) (es : ErrState) :
    FlowError × Option Int × ErrState :=
  match d with
  | .intData v => (.success, some v, es)
  | _ => (.typeMismatch, none,
      setError .typeMismatch ("Expected int, got " ++ d.typeName))

/-- `flow_data_get_double` (src/src/type_conversions.cpp, lines 116-156). -/
def flow_data_get_double (d : FlowData) (es : ErrState) :
    FlowError × Option Nat × ErrState :=
  match d with
  | .doubleData bits => (.success, some bits, es)
  | _ => (.typeMismatch, none,
      setError .typeMismatch ("Expected double, got " ++ d.typeName))

/-- `flow_data_get_bool` (src/src/type_conversions.cpp, lines 158-198). -/
def flow_data_get_bool (d : FlowData) (es : ErrState) :
    FlowError × Option Bool × ErrState :=
  match d with
  | .boolData b => (.success, some b, es)
  | _ => (.typeMismatch, none,
      setError .typeMismatch ("Expected bool, got " ++ d.typeName))

/-- `flow_data_get_string` (src/src/type_conversions.cpp, lines 200-245). -/
def flow_data_get_string (d : FlowData) (es : ErrState) :
    FlowError × Option String × ErrState :=
  match d with
  | .stringData s => (.success, some s, es)
  | _ => (.typeMismatch, none,
      setError .typeMismatch ("Expected string, got " ++ d.typeName))

/-- A `flow::Port` as the bridge observes it: declared data-type name,
caption, required flag, and the current data (`GetData`, `none` = empty). -/
structure Port where
  dataType : String
  caption : String
  required : Bool
  data : Option FlowData
deriving DecidableEq

/-- A `flow::Node` as the bridge observes it: identity, mutable name,
class identifier, and the input/output port maps (association lists keyed
by the port's `IndexableName`).  `computeCount` counts how many times the
node's compute procedure has been triggered, so that compute-triggering is
observable in the embedding. -/
structure Node where
  id : String
  name : String
  className : String
  inputs : List (String × Port)
  outputs : List (String × Port)
  computeCount : Nat
deriving DecidableEq

/-- Lookup of a port by key in one of a node's port maps. -/
def lookupPort (ps : List (String × Port)) (k : String) : Option Port :=
  (ps.find? (fun p => p.1 = k)).map (fun p => p.2)

/-- Replace the data of the port stored under `k`. -/
def storePortData (ps : List (String × Port)) (k : String) (d : Option FlowData) :
    List (String × Port) :=
  ps.map (fun p => if p.1 = k then (p.1, { p.2 with data := d }) else p)

/-- Modelled from the spec: flow-core `Node::SetInputData(key, value,
autoCompute)` — stores `value` in the input port `key` (throwing
`std::out_of_range`, here `none`, if the key is not an input port), and
triggers the node's recompute exactly when `autoCompute` is true (engine
default `autoCompute=true` triggers it; `false` suppresses it). -/
def Node.setInputData (n : Node) (k : String) (d : Option FlowData)
    (autoCompute : Bool) : Option Node :=
  match lookupPort n.inputs k with
  | none => none
  | some _ => some { n with
      inputs := storePortData n.inputs k d,
      computeCount := if autoCompute then n.computeCount + 1 else n.computeCount }

/-- `flow_node_set_input_data` (src/src/node_bridge.cpp, lines 122-163),
after handle and string validation: calls
`node->SetInputData(key, data, false)` — the third argument is the literal
`false` ("Don't auto-compute", line 151); the C signature carries no
auto-compute parameter.  An `std::out_of_range` from the core maps to
`FLOW_ERROR_PORT_NOT_FOUND` with a recorded message. -/
def flow_node_set_input_data (n : Node) (k : String) (d : FlowData)
    (es : ErrState) : FlowError × Node × ErrState :=
  match n.setInputData k (some d) false with
  | some n' => (.success, n', es)
  | none => (.portNotFound, n,
      setError .portNotFound ("Input port not found: " ++ k))

/-- Modelled from the spec: the boundary "set port value" operation as the
specification describes it — auto-compute exposed as an explicit parameter
of the set operation (design note of the spec: "expose as an explicit
parameter on the set-port-value operation"), otherwise identical marshaling
to `flow_node_set_input_data`.  Kept for comparison with the function
translated from the source. -/
def flow_node_set_input_data_spec (n : Node) (k : String) (d : FlowData)
    (autoCompute : Bool) (es : ErrState) : FlowError × Node × ErrState :=
  match n.setInputData k (some d) autoCompute with
  | some n' => (.success, n', es)
  | none => (.portNotFound, n,
      setError .portNotFound ("Input port not found: " ++ k))

/-- `flow_node_validate_required_inputs` (src/src/node_bridge.cpp, lines
341-372), after handle validation: iterates over **all** input ports
(`GetInputPorts`) and returns `false` as soon as one of them holds no data
(`GetInputData` null, or the per-port `std::out_of_range` caught at line
362); returns `true` only when every input port holds data.  The node is
only read, and on this all-ports path no error is recorded: the node and
the error slot are returned unchanged. -/
def flow_node_validate_required_inputs (n : Node) (es : ErrState) :
    Bool × Node × ErrState :=
  (n.inputs.all (fun kp => kp.2.data.isSome), n, es)

/-- `MapTypeToInterworkingType` (src/src/node_bridge.cpp, lines 737-752):
maps a flow-core type-name string to the interworking semantic type. -/
def MapTypeToInterworkingType (t : String) : String :=
  if t = "int" ∨ t = "int32_t" ∨ t = "int64_t" ∨ t = "uint32_t" ∨
      t = "uint64_t" ∨ t = "size_t" then "integer"
  else if t = "float" ∨ t = "double" then "float"
  else if t = "bool" then "boolean"
  else if t = "std::string" ∨ t = "string" ∨ t = "const char*" then "string"
  else "none"

/-- The parsed shape of the `value_descriptor` JSON produced by
`CreateInterworkingJson`: a `"type"` field and an optional `"value"` field
(the JSON text itself is a serialization detail). -/
structure InterworkingJson where
  type : String
  value : Option String
deriving DecidableEq

/-- `CreateInterworkingJson` (src/src/node_bridge.cpp, lines 755-775):
`j["type"]` is the mapped interworking type; `j["value"]` is the port
data's `ToString()` exactly when the mapped type is not `"none"` and the
port holds data (`port->GetData()` non-null). -/
def CreateInterworkingJson (p : Port) : InterworkingJson :=
  let ty := MapTypeToInterworkingType p.dataType
  { type := ty,
    value :=
      match p.data with
      | some d => if ty ≠ "none" then some d.render else none
      | none => none }

/-- The `FlowPortMetadata` record of include/flow_ffi.h (lines 235-239),
with the `value_descriptor` JSON string held in parsed form. -/
structure FlowPortMetadata where
  key : String
  interworking_value_json : InterworkingJson
  has_default : Bool
deriving DecidableEq

/-- The port-resolution step of `flow_node_get_port_metadata`
(src/src/node_bridge.cpp, lines 801-814): try `GetInputPort(key)` first,
and on `std::out_of_range` try `GetOutputPort(key)`. -/
def resolvePort (n : Node) (k : String) : Option Port :=
  match lookupPort n.inputs k with
  | some p => some p
  | none => lookupPort n.outputs k

/-- `flow_node_get_port_metadata` (src/src/node_bridge.cpp, lines 778-844),
after handle/string/pointer validation: resolves the port among inputs then
outputs; when absent from both, fails with `FLOW_ERROR_PORT_NOT_FOUND`,
records a message, mutates nothing and writes nothing into the caller's
record (the `Option FlowPortMetadata` component stays `none`); when found,
fills the record with the key, the interworking JSON and
`has_default = (port->GetData() != nullptr)`. -/
def flow_node_get_port_metadata (n : Node) (k : String) (es : ErrState) :
    FlowError × Node × Option FlowPortMetadata × ErrState :=
  match resolvePort n k with
  | none => (.portNotFound, n, none,
      setError .portNotFound ("Port not found: " ++ k))
  | some p => (.success, n,
      some { key := k,
             interworking_value_json := CreateInterworkingJson p,
             has_default := p.data.isSome }, es)

/-- Modelled from the spec: the flow-core `Env` the bridge creates —
`Env::Create(factory, settings)` yields an environment whose worker pool is
bounded by `settings.MaxThreads`. -/
structure Env where
  maxThreads : Nat
deriving DecidableEq

/-- `flow_env_create` (src/src/env_bridge.cpp, lines 16-38): when
`max_threads <= 0` it records `FLOW_ERROR_INVALID_ARGUMENT` with message
"max_threads must be positive" and returns `NULL` (no environment created);
otherwise it builds `Settings` with
`MaxThreads = static_cast<std::size_t>(max_threads)` (identity on positive
`int32_t`) and returns the created environment. -/
def flow_env_create (max_threads : Int) (es : ErrState) :
    Option Env × ErrState :=
  if max_threads ≤ 0 then
    (none, setError .invalidArgument "max_threads must be positive")
  else
    (some { maxThreads := max_threads.toNat }, es)

/-- A `flow::Connection` as the bridge observes it (`ID`, `StartNodeID`,
`StartPortKey`, `EndNodeID`, `EndPortKey`). -/
structure Connection where
  id : String
  srcNode : String
  srcPort : String
  dstNode : String
  dstPort : String
deriving DecidableEq

/-- A `flow::Graph` as the bridge observes it: the node map and the
connection set. -/
structure Graph where
  nodes : List (String × Node)
  connections : List Connection
deriving DecidableEq

/-- Whether `c` is a character the canonical UUID form allows in a hex
position. -/
def isHexChar (c : Char) : Bool :=
  c.isDigit || ('a' ≤ c && c ≤ 'f') || ('A' ≤ c && c ≤ 'F')

/-- Modelled from the spec: the `UUID(string)` constructor parses a
"canonical hyphenated hex string" (8-4-4-4-12 hex digits separated by
hyphens) and throws on any other input.  `true` means the parse succeeds. -/
def UUID.isCanonical (s : String) : Bool :=
  s.length = 36 &&
  (s.toList.enum.all (fun ci =>
    if ci.1 = 8 ∨ ci.1 = 13 ∨ ci.1 = 18 ∨ ci.1 = 23 then ci.2 = '-'
    else isHexChar ci.2))

/-- Modelled from the spec: flow-core `Graph::DisconnectNodes(srcNode,
srcPort, dstNode, dstPort)` removes the edge(s) with those endpoints; node
set untouched. -/
def Graph.disconnectNodes (g : Graph) (sn sp dn dp : String) : Graph :=
  { g with connections := g.connections.filter (fun c =>
      ¬(c.srcNode = sn ∧ c.srcPort = sp ∧ c.dstNode = dn ∧ c.dstPort = dp)) }

/-- `flow_graph_disconnect_nodes` (src/src/graph_bridge.cpp, lines
301-352), after handle and string validation: parses the connection id as a
UUID (`FLOW_ERROR_INVALID_ARGUMENT` on malformed input), scans
`GetConnections()` for a connection whose `ID()` matches, and — when none
matches — fails with `FLOW_ERROR_CONNECTION_FAILED`, recording
"Connection not found with ID: ...", leaving the graph untouched.  On a
match it disconnects by the connection's endpoints and clears the error
slot. -/
def flow_graph_disconnect_nodes (g : Graph) (connId : String) (_es : ErrState) :
    FlowError × Graph × ErrState :=
  if ¬ UUID.isCanonical connId then
    (.invalidArgument, g, setError .invalidArgument "Invalid UUID format")
  else
    match g.connections.find? (fun c => c.id = connId) with
    | none => (.connectionFailed, g,
        setError .connectionFailed ("Connection not found with ID: " ++ connId))
    | some c =>
        (.success, g.disconnectNodes c.srcNode c.srcPort c.dstNode c.dstPort,
         none)

/-- `flow_graph_get_node` (src/src/graph_bridge.cpp, lines 164-202), after
handle and string validation: parses the node id, looks the node up with
`GetNode(uuid)`, and fails with `FLOW_ERROR_NODE_NOT_FOUND` when the id is
absent from the graph.  This is the "not found" behavior of the boundary's
other by-id lookup, used to compare fault classes. -/
def flow_graph_get_node (g : Graph) (nodeId : String) (_es : ErrState) :
    FlowError × Option Node × ErrState :=
  if ¬ UUID.isCanonical nodeId then
    (.invalidArgument, none, setError .invalidArgument "Invalid UUID format")
  else
    match g.nodes.find? (fun p => p.1 = nodeId) with
    | none => (.nodeNotFound, none,
        setError .nodeNotFound ("Node not found with ID: " ++ nodeId))
    | some p => (.success, some p.2, none)

/-- A `flow::Module` as the bridge observes it: whether it is loaded and
whether its nodes are currently registered with the factory. -/
structure Module where
  isLoaded : Bool
  nodesRegistered : Bool
deriving DecidableEq

/-- Modelled from the spec: flow-core `Module::Unload() -> bool`. -/
def Module.unloadCore (m : Module) : Bool × Module :=
  (true, { m with isLoaded := false })

/-- Modelled from the spec: flow-core `Module::RegisterModuleNodes()`
populates the factory with the module's node classes. -/
def Module.registerCore (m : Module) : Module :=
  { m with nodesRegistered := true }

/-- Modelled from the spec: flow-core `Module::UnregisterModuleNodes()`. -/
def Module.unregisterCore (m : Module) : Module :=
  { m with nodesRegistered := false }

/-- `flow_module_unload` (src/src/module_bridge.cpp, lines 100-136), after
handle validation: the function first clears the error slot; when
`IsLoaded()` is false it returns `FLOW_SUCCESS` immediately — "Unloading a
module that's not loaded is a no-op and should succeed" (line 119) — with
no call into `Unload()`; otherwise it calls `Unload()` and maps a false
result to `FLOW_ERROR_MODULE_LOAD_FAILED`. -/
def flow_module_unload (m : Module) (_es : ErrState) :
    FlowError × Module × ErrState :=
  if ¬ m.isLoaded then
    (.success, m, none)
  else
    let r := m.unloadCore
    if r.1 then (.success, r.2, none)
    else (.moduleLoadFailed, m,
      setError .moduleLoadFailed "Failed to unload module")

/-- `flow_module_register_nodes` (src/src/module_bridge.cpp, lines
138-168), after handle validation: clears the error slot, then fails with
`FLOW_ERROR_MODULE_LOAD_FAILED` ("Module is not loaded") when `IsLoaded()`
is false; otherwise calls `RegisterModuleNodes()`. -/
def flow_module_register_nodes (m : Module) (_es : ErrState) :
    FlowError × Module × ErrState :=
  if ¬ m.isLoaded then
    (.moduleLoadFailed, m, setError .moduleLoadFailed "Module is not loaded")
  else
    (.success, m.registerCore, none)

/-- `flow_module_unregister_nodes` (src/src/module_bridge.cpp, lines
170-200): same guard as `flow_module_register_nodes`. -/
def flow_module_unregister_nodes (m : Module) (_es : ErrState) :
    FlowError × Module × ErrState :=
  if ¬ m.isLoaded then
    (.moduleLoadFailed, m, setError .moduleLoadFailed "Module is not loaded")
  else
    (.success, m.unregisterCore, none)

/-- The wrapper types under which the bridge registers objects in the
handle registry (`Handle<T>` instantiations of src/src/handle_manager.hpp). -/
inductive HKind where
  | nodeK
  | nodeDataK
  | graphK
  | envK
  | moduleK
deriving DecidableEq

/-- A registered object together with its wrapper type
(`Handle<NodeWrapper>`, `Handle<NodeDataWrapper>`, ...). -/
inductive HObject where
  | nodeObj (n : Node)
  | dataObj (d : FlowData)
  | graphObj (g : Graph)
  | envObj (e : Env)
  | moduleObj (m : Module)
deriving DecidableEq

/-- The dynamic type tag `dynamic_cast<Handle<T>*>` dispatches on. -/
def HObject.kind : HObject → HKind
  | .nodeObj _ => .nodeK
  | .dataObj _ => .nodeDataK
  | .graphObj _ => .graphK
  | .envObj _ => .envK
  | .moduleObj _ => .moduleK

/-- The `HandleRegistry` map (src/src/handle_manager.hpp, lines 50-119):
raw pointers (modelled as `Nat`) mapped to registered objects.  A C handle
argument is `Option Nat`, `none` being `NULL`. -/
abbrev Registry := List (Nat × HObject)

/-- The `handles_.find(ptr)` lookup of the registry. -/
def Registry.lookup (r : Registry) (p : Nat) : Option HObject :=
  (r.find? (fun e => e.1 = p)).map (fun e => e.2)

/-- `HandleRegistry::get_handle<T>` (src/src/handle_manager.hpp, lines
66-80): `nullptr` (`none`) when the pointer is not in the map, or when the
`dynamic_cast<Handle<T>*>` fails because the entry was registered under a
different wrapper type; the stored object otherwise. -/
def get_handle (k : HKind) (r : Registry) (p : Nat) : Option HObject :=
  match r.lookup p with
  | none => none
  | some o => if o.kind = k then some o else none

/-- `HandleRegistry::is_valid_handle` (src/src/handle_manager.hpp, lines
90-93): membership in the map, irrespective of type. -/
def is_valid_handle (r : Registry) (p : Nat) : Bool :=
  (r.lookup p).isSome

/-- `flow_ffi::validate_handle` (src/src/error_handling.hpp, lines
134-147): a `NULL` handle or an unregistered pointer records
`FLOW_ERROR_INVALID_HANDLE` and yields `false`. -/
def validate_handle (r : Registry) (h : Option Nat) (name : String)
    (es : ErrState) : Bool × ErrState :=
  match h with
  | none => (false,
      setError .invalidHandle ("Invalid handle: " ++ name ++ " is null"))
  | some p =>
      if is_valid_handle r p then (true, es)
      else (false,
        setError .invalidHandle ("Invalid handle: " ++ name ++ " is not registered"))

/-- `flow_node_set_name` (src/src/node_bridge.cpp, lines 97-116), embedded
with its full handle marshaling as the representative bridge operation:
`validate_handle`, then `validate_string`, then `get_handle<NodeWrapper>`
— a pointer registered under a different wrapper type yields
`FLOW_ERROR_INVALID_HANDLE` ("Invalid node handle") — and only then the
node mutation, which re-registers the updated node under the same
pointer. -/
def flow_node_set_name (r : Registry) (h : Option Nat) (name : Option String)
    (es : ErrState) : FlowError × Registry × ErrState :=
  let v := validate_handle r h "node" es
  if ¬ v.1 then (.invalidHandle, r, v.2)
  else
    match name with
    | none => (.invalidArgument, r,
        setError .invalidArgument "Invalid argument: name is null")
    | some nm =>
        match h with
        | none => (.invalidHandle, r, v.2)
        | some p =>
            match get_handle .nodeK r p with
            | some (.nodeObj n) =>
                (.success,
                 r.map (fun e =>
                   if e.1 = p then (e.1, .nodeObj { n with name := nm }) else e),
                 v.2)
            | _ => (.invalidHandle, r,
                setError .invalidHandle "Invalid node handle")

/-- C3: for every `max_threads <= 0`, `flow_env_create` fails with
`FLOW_ERROR_INVALID_ARGUMENT`, the recorded error message contains the word
"positive", and no environment is created (the function returns null); for
every `max_threads >= 1` the environment is created with that thread
count. -/
theorem env_create_thread_count_contract (t : Int) (es : ErrState) :
    (t ≤ 0 →
      (flow_env_create t es).1 = none ∧
      (flow_env_create t es).2 =
        some (FlowError.invalidArgument, "max_threads must be positive") ∧
      ∃ msg, flow_get_last_error (flow_env_create t es).2 = some msg ∧
        ContainsWord msg "positive") ∧
    (1 ≤ t →
      (flow_env_create t es).1 = some { maxThreads := t.toNat } ∧
      (flow_env_create t es).2 = es) := by
  constructor
  · intro h
    refine ⟨by simp [flow_env_create, h],
      by simp [flow_env_create, h, setError], ?_⟩
    refine ⟨"max_threads must be positive", by simp [flow_env_create, h,
      flow_get_last_error, setError], "max_threads must be ", "", by decide⟩
  · intro h
    have h' : ¬ t ≤ 0 := by omega
    exact ⟨by simp [flow_env_create, h'], by simp [flow_env_create, h']⟩

/-- Witness for `env_create_thread_count_contract` at `max_threads = -1`
and `max_threads = 4`. -/
theorem env_create_thread_count_contract_witness :
    ((flow_env_create (-1) none).1 = none ∧
      (flow_env_create (-1) none).2 =
        some (FlowError.invalidArgument, "max_threads must be positive") ∧
      ∃ msg, flow_get_last_error (flow_env_create (-1) none).2 = some msg ∧
        ContainsWord msg "positive") ∧
    ((flow_env_create 4 none).1 = some { maxThreads := 4 } ∧
      (flow_env_create 4 none).2 = none) :=
  ⟨(env_create_thread_count_contract (-1) none).1 (by decide),
   (env_create_thread_count_contract 4 none).2 (by decide)⟩

/-- C8: reading a data value back through the getter of its own type
succeeds and returns exactly the created value, while each of the three
getters of the other types fails with `FLOW_ERROR_TYPE_MISMATCH` and
leaves the caller's output location unwritten — for all four create/get
pairs (int, double, bool, string). -/
theorem data_create_get_roundtrip_and_mismatch (v : Int) (bits : Nat)
    (b : Bool) (s : String) (es : ErrState) :
    flow_data_get_int (flow_data_create_int v) es = (.success, some v, es) ∧
    flow_data_get_double (flow_data_create_double bits) es =
      (.success, some bits, es) ∧
    flow_data_get_bool (flow_data_create_bool b) es = (.success, some b, es) ∧
    flow_data_get_string (flow_data_create_string s) es =
      (.success, some s, es) ∧
    ((flow_data_get_double (flow_data_create_int v) es).1 = .typeMismatch ∧
      (flow_data_get_double (flow_data_create_int v) es).2.1 = none) ∧
    ((flow_data_get_bool (flow_data_create_int v) es).1 = .typeMismatch ∧
      (flow_data_get_bool (flow_data_create_int v) es).2.1 = none) ∧
    ((flow_data_get_string (flow_data_create_int v) es).1 = .typeMismatch ∧
      (flow_data_get_string (flow_data_create_int v) es).2.1 = none) ∧
    ((flow_data_get_int (flow_data_create_double bits) es).1 = .typeMismatch ∧
      (flow_data_get_int (flow_data_create_double bits) es).2.1 = none) ∧
    ((flow_data_get_bool (flow_data_create_double bits) es).1 = .typeMismatch ∧
      (flow_data_get_bool (flow_data_create_double bits) es).2.1 = none) ∧
    ((flow_data_get_string (flow_data_create_double bits) es).1 = .typeMismatch ∧
      (flow_data_get_string (flow_data_create_double bits) es).2.1 = none) ∧
    ((flow_data_get_int (flow_data_create_bool b) es).1 = .typeMismatch ∧
      (flow_data_get_int (flow_data_create_bool b) es).2.1 = none) ∧
    ((flow_data_get_double (flow_data_create_bool b) es).1 = .typeMismatch ∧
      (flow_data_get_double (flow_data_create_bool b) es).2.1 = none) ∧
    ((flow_data_get_string (flow_data_create_bool b) es).1 = .typeMismatch ∧
      (flow_data_get_string (flow_data_create_bool b) es).2.1 = none) ∧
    ((flow_data_get_int (flow_data_create_string s) es).1 = .typeMismatch ∧
      (flow_data_get_int (flow_data_create_string s) es).2.1 = none) ∧
    ((flow_data_get_double (flow_data_create_string s) es).1 = .typeMismatch ∧
      (flow_data_get_double (flow_data_create_string s) es).2.1 = none) ∧
    ((flow_data_get_bool (flow_data_create_string s) es).1 = .typeMismatch ∧
      (flow_data_get_bool (flow_data_create_string s) es).2.1 = none) :=
  ⟨rfl, rfl, rfl, rfl, ⟨rfl, rfl⟩, ⟨rfl, rfl⟩, ⟨rfl, rfl⟩, ⟨rfl, rfl⟩,
   ⟨rfl, rfl⟩, ⟨rfl, rfl⟩, ⟨rfl, rfl⟩, ⟨rfl, rfl⟩, ⟨rfl, rfl⟩, ⟨rfl, rfl⟩,
   ⟨rfl, rfl⟩, ⟨rfl, rfl⟩⟩

/-- C7: unloading a module that is not loaded succeeds as a no-op (module
state untouched, no unload work), while registering or unregistering the
nodes of an unloaded module fails with `FLOW_ERROR_MODULE_LOAD_FAILED`. -/
theorem module_unload_noop_register_guard (m : Module) (es : ErrState)
    (h : m.isLoaded = false) :
    flow_module_unload m es = (.success, m, none) ∧
    flow_module_register_nodes m es =
      (.moduleLoadFailed, m,
        setError .moduleLoadFailed "Module is not loaded") ∧
    flow_module_unregister_nodes m es =
      (.moduleLoadFailed, m,
        setError .moduleLoadFailed "Module is not loaded") := by
  refine ⟨?_, ?_, ?_⟩ <;>
    simp [flow_module_unload, flow_module_register_nodes,
      flow_module_unregister_nodes, h]

/-- Witness for `module_unload_noop_register_guard` at a concrete unloaded
module. -/
theorem module_unload_noop_register_guard_witness :
    flow_module_unload { isLoaded := false, nodesRegistered := false } none =
      (.success, { isLoaded := false, nodesRegistered := false }, none) ∧
    flow_module_register_nodes
        { isLoaded := false, nodesRegistered := false } none =
      (.moduleLoadFailed, { isLoaded := false, nodesRegistered := false },
        setError .moduleLoadFailed "Module is not loaded") ∧
    flow_module_unregister_nodes
        { isLoaded := false, nodesRegistered := false } none =
      (.moduleLoadFailed, { isLoaded := false, nodesRegistered := false },
        setError .moduleLoadFailed "Module is not loaded") :=
  module_unload_noop_register_guard
    { isLoaded := false, nodesRegistered := false } none rfl

/-- A concrete node with a single input port that is not marked required
and currently holds no data. -/
def nodeOptionalEmptyInput : Node :=
  { id := "00000000-0000-0000-0000-00000000000a",
    name := "n", className := "test.node",
    inputs := [("in",
      { dataType := "int", caption := "In", required := false, data := none })],
    outputs := [], computeCount := 0 }

/-- C1 counterexample: on a node whose only input port is not marked
required and is empty, `flow_node_validate_required_inputs` returns
`false`, although every port marked required (there is none) holds data —
the claimed biconditional "true iff every required input port holds a
non-empty value" is false for this node, because the bridge checks every
input port regardless of its required flag. -/
theorem validate_required_inputs_claim_cex :
    ¬ (((flow_node_validate_required_inputs nodeOptionalEmptyInput none).1
          = true) ↔
       (∀ kp ∈ nodeOptionalEmptyInput.inputs,
          kp.2.required = true → kp.2.data.isSome = true)) := by
  decide

/-- C1 amended: `flow_node_validate_required_inputs` returns true iff
every input port — required or not — holds a non-empty current value, and
the query has no side effects: the node and the error slot are returned
unchanged. -/
theorem validate_required_inputs_checks_every_input (n : Node)
    (es : ErrState) :
    ((flow_node_validate_required_inputs n es).1 = true ↔
      ∀ kp ∈ n.inputs, kp.2.data.isSome = true) ∧
    (flow_node_validate_required_inputs n es).2.1 = n ∧
    (flow_node_validate_required_inputs n es).2.2 = es := by
  refine ⟨?_, rfl, rfl⟩
  simp [flow_node_validate_required_inputs, List.all_eq_true]

/-- A concrete node with a single required, empty int input port. -/
def nodeWithIntInput : Node :=
  { id := "00000000-0000-0000-0000-00000000000b",
    name := "n", className := "test.node",
    inputs := [("in",
      { dataType := "int", caption := "In", required := true, data := none })],
    outputs := [], computeCount := 0 }

/-- C2 counterexample: on a concrete node, writing through the boundary's
`flow_node_set_input_data` does not behave as a write with
`autoCompute=true` — it triggers no recompute (the compute count stays 0,
where the spec-described operation with `autoCompute=true` yields 1),
because the bridge hard-codes `autoCompute=false` and exposes no such
parameter. -/
theorem set_input_data_autocompute_cex :
    flow_node_set_input_data nodeWithIntInput "in" (.intData 5) none ≠
      flow_node_set_input_data_spec nodeWithIntInput "in" (.intData 5)
        true none ∧
    (flow_node_set_input_data nodeWithIntInput "in"
        (.intData 5) none).2.1.computeCount = 0 ∧
    (flow_node_set_input_data_spec nodeWithIntInput "in" (.intData 5)
        true none).2.1.computeCount = 1 := by
  decide

/-- C2 amended: the boundary's set-input operation always suppresses
auto-compute — it coincides with the spec-described parameterized set
operation applied at `autoCompute=false`, and a successful boundary write
never triggers the node's recompute. -/
theorem set_input_data_always_suppresses_autocompute (n : Node) (k : String)
    (d : FlowData) (es : ErrState) (p : Port)
    (h : lookupPort n.inputs k = some p) :
    flow_node_set_input_data n k d es =
      flow_node_set_input_data_spec n k d false es ∧
    (flow_node_set_input_data n k d es).1 = .success ∧
    (flow_node_set_input_data n k d es).2.1.computeCount = n.computeCount := by
  refine ⟨rfl, ?_, ?_⟩ <;>
    simp [flow_node_set_input_data, Node.setInputData, h]

/-- Witness for `set_input_data_always_suppresses_autocompute` at a
concrete node and port. -/
theorem set_input_data_always_suppresses_autocompute_witness :
    flow_node_set_input_data nodeWithIntInput "in" (.boolData true) none =
      flow_node_set_input_data_spec nodeWithIntInput "in" (.boolData true)
        false none ∧
    (flow_node_set_input_data nodeWithIntInput "in"
        (.boolData true) none).1 = .success ∧
    (flow_node_set_input_data nodeWithIntInput "in"
        (.boolData true) none).2.1.computeCount =
      nodeWithIntInput.computeCount :=
  set_input_data_always_suppresses_autocompute nodeWithIntInput "in"
    (.boolData true) none
    { dataType := "int", caption := "In", required := true, data := none }
    (by decide)

/-- C4: for a port resolved by `flow_node_get_port_metadata`, the produced
record's `value_descriptor` has a `type` that is exactly one of
integer/float/boolean/string/none, with the int-like C++ type names mapped
to integer, float/double to float, bool to boolean, the string type names
to string and every other type name to none; the `value` field is present
only when the type is not none and the port currently holds data; and
`has_default` is true iff the port currently holds data. -/
theorem get_port_metadata_descriptor_shape (n : Node) (k : String)
    (es : ErrState) (p : Port) (h : resolvePort n k = some p) :
    flow_node_get_port_metadata n k es =
      (.success, n,
       some { key := k,
              interworking_value_json := CreateInterworkingJson p,
              has_default := p.data.isSome }, es) ∧
    ((CreateInterworkingJson p).type = "integer" ∨
      (CreateInterworkingJson p).type = "float" ∨
      (CreateInterworkingJson p).type = "boolean" ∨
      (CreateInterworkingJson p).type = "string" ∨
      (CreateInterworkingJson p).type = "none") ∧
    (p.dataType = "int" ∨ p.dataType = "int32_t" ∨ p.dataType = "int64_t" ∨
        p.dataType = "uint32_t" ∨ p.dataType = "uint64_t" ∨
        p.dataType = "size_t" →
      (CreateInterworkingJson p).type = "integer") ∧
    (p.dataType = "float" ∨ p.dataType = "double" →
      (CreateInterworkingJson p).type = "float") ∧
    (p.dataType = "bool" → (CreateInterworkingJson p).type = "boolean") ∧
    (p.dataType = "std::string" ∨ p.dataType = "string" ∨
        p.dataType = "const char*" →
      (CreateInterworkingJson p).type = "string") ∧
    (p.dataType ∉ (["int", "int32_t", "int64_t", "uint32_t", "uint64_t",
        "size_t", "float", "double", "bool", "std::string", "string",
        "const char*"] : List String) →
      (CreateInterworkingJson p).type = "none") ∧
    ((CreateInterworkingJson p).value ≠ none →
      (CreateInterworkingJson p).type ≠ "none" ∧ p.data ≠ none) ∧
    ((flow_node_get_port_metadata n k es).2.2.1.map
        (fun md => md.has_default) = some (p.data.isSome)) := by
  have hmeta : flow_node_get_port_metadata n k es =
      (.success, n,
       some { key := k,
              interworking_value_json := CreateInterworkingJson p,
              has_default := p.data.isSome }, es) := by
    simp [flow_node_get_port_metadata, h]
  refine ⟨hmeta, ?_, ?_, ?_, ?_, ?_, ?_, ?_, ?_⟩
  · unfold CreateInterworkingJson MapTypeToInterworkingType
    split_ifs <;> simp
  · intro ht
    unfold CreateInterworkingJson MapTypeToInterworkingType
    rcases ht with h1 | h1 | h1 | h1 | h1 | h1 <;> simp [h1]
  · intro ht
    unfold CreateInterworkingJson MapTypeToInterworkingType
    rcases ht with h1 | h1 <;> simp [h1]
  · intro ht
    unfold CreateInterworkingJson MapTypeToInterworkingType
    simp [ht]
  · intro ht
    unfold CreateInterworkingJson MapTypeToInterworkingType
    rcases ht with h1 | h1 | h1 <;> simp [h1]
  · intro ht
    simp only [List.mem_cons, List.not_mem_nil, or_false, not_or] at ht
    obtain ⟨e1, e2, e3, e4, e5, e6, e7, e8, e9, e10, e11, e12⟩ := ht
    unfold CreateInterworkingJson MapTypeToInterworkingType
    simp [e1, e2, e3, e4, e5, e6, e7, e8, e9, e10, e11, e12]
  · intro hv
    unfold CreateInterworkingJson at hv ⊢
    rcases hp : p.data with _ | d
    · rw [hp] at hv; simp at hv
    · rw [hp] at hv
      by_cases hty : MapTypeToInterworkingType p.dataType = "none"
      · simp [hty] at hv
      · simp [hty]
  · rw [hmeta]; rfl

/-- Witness for `get_port_metadata_descriptor_shape` at a concrete node
and port. -/
theorem get_port_metadata_descriptor_shape_witness :
    (flow_node_get_port_metadata nodeOptionalEmptyInput "in" none =
      (.success, nodeOptionalEmptyInput,
       some { key := "in",
              interworking_value_json := CreateInterworkingJson
                { dataType := "int", caption := "In", required := false,
                  data := none },
              has_default := false }, none)) ∧
    ((CreateInterworkingJson
        { dataType := "int", caption := "In", required := false,
          data := none }).type = "integer") := by
  have h := get_port_metadata_descriptor_shape nodeOptionalEmptyInput "in"
    none
    { dataType := "int", caption := "In", required := false, data := none }
    (by decide)
  exact ⟨h.1, h.2.2.1 (by decide)⟩

/-- C5: for a port key that is neither an input nor an output port of the
node, `flow_node_get_port_metadata` fails with
`FLOW_ERROR_PORT_NOT_FOUND`, returns the node unchanged, and writes
nothing into the caller's metadata record. -/
theorem get_port_metadata_missing_port (n : Node) (k : String)
    (es : ErrState) (h1 : lookupPort n.inputs k = none)
    (h2 : lookupPort n.outputs k = none) :
    flow_node_get_port_metadata n k es =
      (.portNotFound, n, none,
       setError .portNotFound ("Port not found: " ++ k)) := by
  simp [flow_node_get_port_metadata, resolvePort, h1, h2]

/-- Witness for `get_port_metadata_missing_port` at a concrete node and a
key that names no port. -/
theorem get_port_metadata_missing_port_witness :
    flow_node_get_port_metadata nodeOptionalEmptyInput "missing" none =
      (.portNotFound, nodeOptionalEmptyInput, none,
       setError .portNotFound ("Port not found: " ++ "missing")) :=
  get_port_metadata_missing_port nodeOptionalEmptyInput "missing" none
    (by decide) (by decide)

/-- A concrete graph with no nodes and no connections. -/
def emptyGraph : Graph := { nodes := [], connections := [] }

/-- A canonical connection id that no graph in this file contains. -/
def missingConnId : String := "00000000-0000-0000-0000-000000000001"

/-- C6 counterexample: disconnecting the empty graph by a well-formed
connection id that is not present fails with
`FLOW_ERROR_CONNECTION_FAILED` — which is neither
`FLOW_ERROR_NODE_NOT_FOUND` nor `FLOW_ERROR_PORT_NOT_FOUND`, the "not
found" codes the boundary's other lookups use (`flow_graph_get_node` on
the same id yields `FLOW_ERROR_NODE_NOT_FOUND`) — so the failure is not
reported in the same "not found" fault class as other lookups. -/
theorem disconnect_not_found_code_cex :
    (flow_graph_disconnect_nodes emptyGraph missingConnId none).1 =
      .connectionFailed ∧
    (flow_graph_disconnect_nodes emptyGraph missingConnId none).1 ≠
      .nodeNotFound ∧
    (flow_graph_disconnect_nodes emptyGraph missingConnId none).1 ≠
      .portNotFound ∧
    (flow_graph_get_node emptyGraph missingConnId none).1 =
      .nodeNotFound := by
  decide

/-- C6 amended: for every well-formed connection id not present in the
graph, `flow_graph_disconnect_nodes` is not a silent success — it fails
with `FLOW_ERROR_CONNECTION_FAILED` (the general connection fault class,
not a dedicated not-found code), records a "Connection not found" message,
and leaves the graph's node and connection sets unchanged. -/
theorem disconnect_unknown_id_connection_failed (g : Graph) (cid : String)
    (es : ErrState) (hc : UUID.isCanonical cid = true)
    (h : ∀ c ∈ g.connections, c.id ≠ cid) :
    flow_graph_disconnect_nodes g cid es =
      (.connectionFailed, g,
       setError .connectionFailed
         ("Connection not found with ID: " ++ cid)) := by
  have hf : g.connections.find? (fun c => c.id = cid) = none := by
    rw [List.find?_eq_none]
    intro c hm
    simpa using h c hm
  simp [flow_graph_disconnect_nodes, hc, hf]

/-- Witness for `disconnect_unknown_id_connection_failed` at the empty
graph and a concrete id. -/
theorem disconnect_unknown_id_connection_failed_witness :
    flow_graph_disconnect_nodes emptyGraph missingConnId none =
      (.connectionFailed, emptyGraph,
       setError .connectionFailed
         ("Connection not found with ID: " ++ missingConnId)) :=
  disconnect_unknown_id_connection_failed emptyGraph missingConnId none
    (by decide) (by intro c hm; simp [emptyGraph] at hm)

/-- C9: the registry lookup `get_handle<T>` returns null for a pointer
that is not registered, and for a pointer registered under a different
wrapper type than the one requested; consequently the representative
bridge operation `flow_node_set_name`, given a null, unregistered, or
wrongly-typed handle, rejects it with `FLOW_ERROR_INVALID_HANDLE`, leaves
the registry untouched, and records an error instead of dereferencing the
handle. -/
theorem invalid_handle_lookup_rejection (r : Registry) (p : Nat)
    (k : HKind) (o : HObject) (nm : String) (es : ErrState) :
    (r.lookup p = none → get_handle k r p = none) ∧
    (r.lookup p = some o → o.kind ≠ k → get_handle k r p = none) ∧
    (flow_node_set_name r none (some nm) es =
      (.invalidHandle, r,
       setError .invalidHandle "Invalid handle: node is null")) ∧
    (r.lookup p = none → flow_node_set_name r (some p) (some nm) es =
      (.invalidHandle, r,
       setError .invalidHandle "Invalid handle: node is not registered")) ∧
    (r.lookup p = some o → o.kind ≠ .nodeK →
      flow_node_set_name r (some p) (some nm) es =
        (.invalidHandle, r,
         setError .invalidHandle "Invalid node handle")) := by
  refine ⟨?_, ?_, ?_, ?_, ?_⟩
  · intro h
    simp [get_handle, h]
  · intro h hk
    simp [get_handle, h, hk]
  · rfl
  · intro h
    simp [flow_node_set_name, validate_handle, is_valid_handle, h]
  · intro h hk
    have hv : is_valid_handle r p = true := by
      simp [is_valid_handle, h]
    have hg : get_handle .nodeK r p = none := by
      simp [get_handle, h, hk]
    simp only [flow_node_set_name, validate_handle, hv, if_true,
      Bool.not_true, Bool.false_eq_true, if_false, hg]
    rfl

/-- Witness for `invalid_handle_lookup_rejection` at a one-entry registry
holding a data object, probed as a node handle. -/
theorem invalid_handle_lookup_rejection_witness :
    (get_handle .nodeK [(1, .dataObj (.intData 0))] 2 = none) ∧
    (get_handle .nodeK [(1, .dataObj (.intData 0))] 1 = none) ∧
    (flow_node_set_name [(1, .dataObj (.intData 0))] (some 2) (some "x")
        none =
      (.invalidHandle, [(1, .dataObj (.intData 0))],
       setError .invalidHandle "Invalid handle: node is not registered")) ∧
    (flow_node_set_name [(1, .dataObj (.intData 0))] (some 1) (some "x")
        none =
      (.invalidHandle, [(1, .dataObj (.intData 0))],
       setError .invalidHandle "Invalid node handle")) := by
  have h := invalid_handle_lookup_rejection [(1, .dataObj (.intData 0))] 2
    .nodeK (.dataObj (.intData 0)) "x" none
  have h1 := invalid_handle_lookup_rejection [(1, .dataObj (.intData 0))] 1
    .nodeK (.dataObj (.intData 0)) "x" none
  exact ⟨h.1 (by decide), h1.2.1 (by decide) (by decide),
    h.2.2.2.1 (by decide), h1.2.2.2.2 (by decide) (by decide)⟩

/-- A concrete node with one empty input port, used to probe the
error-recording behavior of a false validation result. -/
def nodeEmptyInputNoError : Node :=
  { id := "00000000-0000-0000-0000-00000000000c",
    name := "n", className := "test.node",
    inputs := [("in",
      { dataType := "int", caption := "In", required := true, data := none })],
    outputs := [], computeCount := 0 }

/-- C10 counterexample: `flow_node_validate_required_inputs` on a node with
an empty input port returns `false` — a failure outcome in the claim's
sense — yet records no error for the calling thread: starting from an
empty error slot, `flow_get_last_error` still returns null afterwards. -/
theorem error_recording_claim_cex :
    (flow_node_validate_required_inputs nodeEmptyInputNoError none).1 =
      false ∧
    flow_get_last_error
      (flow_node_validate_required_inputs nodeEmptyInputNoError none).2.2 =
      none := by
  decide

/-- A string with a nonempty prefix is nonempty. -/
theorem prefixed_ne_empty (a b : String) (h : a.data ≠ []) : a ++ b ≠ "" := by
  intro he
  apply h
  have hd : (a ++ b).data = ("" : String).data := by rw [he]
  rw [String.data_append] at hd
  exact (List.append_eq_nil.mp hd).1

/-- C10 amended: the failure outcomes the boundary reports through error
codes — invalid thread counts, missing ports, type mismatches, unknown
connection ids, operations on unloaded modules — each record a non-null,
nonempty error message for the calling thread, retrievable by
`flow_get_last_error`; but a `false` result from the pure validation query
`flow_node_validate_required_inputs` records nothing (see the
counterexample), so failure-implies-recorded-error holds for the
code-returning operations, not for every false-returning query. -/
theorem failures_record_thread_error (t : Int) (n : Node) (k : String)
    (d : FlowData) (g : Graph) (cid : String) (m : Module) (es : ErrState) :
    (t ≤ 0 → ∃ msg, flow_get_last_error (flow_env_create t es).2 =
      some msg ∧ msg ≠ "") ∧
    (lookupPort n.inputs k = none → lookupPort n.outputs k = none →
      ∃ msg, flow_get_last_error
        (flow_node_get_port_metadata n k es).2.2.2 = some msg ∧ msg ≠ "") ∧
    ((flow_data_get_int d es).1 = .typeMismatch →
      ∃ msg, flow_get_last_error (flow_data_get_int d es).2.2 =
        some msg ∧ msg ≠ "") ∧
    (UUID.isCanonical cid = true → (∀ c ∈ g.connections, c.id ≠ cid) →
      ∃ msg, flow_get_last_error
        (flow_graph_disconnect_nodes g cid es).2.2 = some msg ∧ msg ≠ "") ∧
    (m.isLoaded = false →
      ∃ msg, flow_get_last_error (flow_module_register_nodes m es).2.2 =
        some msg ∧ msg ≠ "") := by
  refine ⟨?_, ?_, ?_, ?_, ?_⟩
  · intro h
    exact ⟨"max_threads must be positive",
      by simp [flow_env_create, h, flow_get_last_error, setError],
      by decide⟩
  · intro h1 h2
    refine ⟨"Port not found: " ++ k, by simp [flow_node_get_port_metadata,
      resolvePort, h1, h2, flow_get_last_error, setError], ?_⟩
    exact prefixed_ne_empty "Port not found: " k (by decide)
  · intro h
    rcases d with v | bits | b | s
    · simp [flow_data_get_int] at h
    · exact ⟨"Expected int, got " ++ FlowData.typeName (.doubleData bits),
        by simp [flow_data_get_int, flow_get_last_error, setError],
        prefixed_ne_empty _ _ (by decide)⟩
    · exact ⟨"Expected int, got " ++ FlowData.typeName (.boolData b),
        by simp [flow_data_get_int, flow_get_last_error, setError],
        prefixed_ne_empty _ _ (by decide)⟩
    · exact ⟨"Expected int, got " ++ FlowData.typeName (.stringData s),
        by simp [flow_data_get_int, flow_get_last_error, setError],
        prefixed_ne_empty _ _ (by decide)⟩
  · intro hc h
    have hf : g.connections.find? (fun c => c.id = cid) = none := by
      rw [List.find?_eq_none]
      intro c hm
      simpa using h c hm
    refine ⟨"Connection not found with ID: " ++ cid,
      by simp [flow_graph_disconnect_nodes, hc, hf, flow_get_last_error,
        setError], ?_⟩
    exact prefixed_ne_empty "Connection not found with ID: " cid (by decide)
  · intro h
    exact ⟨"Module is not loaded",
      by simp [flow_module_register_nodes, h, flow_get_last_error, setError],
      by decide⟩

/-- Witness for `failures_record_thread_error` at concrete failing inputs
for each of its five conjuncts. -/
theorem failures_record_thread_error_witness :
    (∃ msg, flow_get_last_error (flow_env_create (-2) none).2 =
      some msg ∧ msg ≠ "") ∧
    (∃ msg, flow_get_last_error
      (flow_node_get_port_metadata nodeEmptyInputNoError "zzz" none).2.2.2 =
        some msg ∧ msg ≠ "") ∧
    (∃ msg, flow_get_last_error
      (flow_data_get_int (.boolData true) none).2.2 = some msg ∧ msg ≠ "") ∧
    (∃ msg, flow_get_last_error
      (flow_graph_disconnect_nodes emptyGraph missingConnId none).2.2 =
        some msg ∧ msg ≠ "") ∧
    (∃ msg, flow_get_last_error
      (flow_module_register_nodes
        { isLoaded := false, nodesRegistered := true } none).2.2 =
        some msg ∧ msg ≠ "") := by
  have h := failures_record_thread_error (-2) nodeEmptyInputNoError "zzz"
    (.boolData true) emptyGraph missingConnId
    { isLoaded := false, nodesRegistered := true } none
  exact ⟨h.1 (by decide), h.2.1 (by decide) (by decide),
    h.2.2.1 (by decide), h.2.2.2.1 (by decide)
      (by intro c hm; simp [emptyGraph] at hm),
    h.2.2.2.2 rfl⟩

end FlowFFI
